import Mathlib

/-!
Verification of the geometry/layout core of `publish_pipeline.py`
(unit conversion, spine estimation, wrap-cover panel planning, text placement).
Lengths in millimetres are modelled as exact rationals; pixel counts as integers.
-/

namespace PublishPipeline

/-- Rounding of an exact rational to the nearest integer with ties going to the
even integer, modelling Python's built-in `round` as applied inside `mm_to_px`. -/
def pyRound (q : ℚ) : ℤ :=
  if q - ⌊q⌋ < 1/2 then ⌊q⌋
  else if 1/2 < q - ⌊q⌋ then ⌊q⌋ + 1
  else if ⌊q⌋ % 2 = 0 then ⌊q⌋ else ⌊q⌋ + 1

/-- Embeds `mm_to_px` (publish_pipeline.py, lines 66-67):
`return int(round(mm / 25.4 * dpi))` — no validation of `dpi` is performed. -/
def mm_to_px (mm : ℚ) (dpi : ℤ) : ℤ :=
  pyRound (mm / (254/10) * dpi)

/-- Embeds `compute_spine_width_mm` (publish_pipeline.py, lines 70-71):
`return page_count * thickness_per_page_mm` — no validation is performed. -/
def compute_spine_width_mm (page_count : ℤ) (thickness_per_page_mm : ℚ) : ℚ :=
  page_count * thickness_per_page_mm

/-- The inputs of `generate_print_wrap_cover_a8` that determine the cover
geometry (title/author/font only affect text, not the panel layout). -/
structure CoverSpec where
  width_mm : ℚ
  height_mm : ℚ
  bleed_mm : ℚ
  dpi : ℤ
  page_count : ℤ
  thickness_per_page_mm : ℚ
  deriving DecidableEq, Repr

/-- Validity of a CoverSpec as described by the spec's data model:
positive dpi and trim, non-negative bleed, page count and paper thickness. -/
def CoverSpec.Valid (s : CoverSpec) : Prop :=
  0 < s.dpi ∧ 0 ≤ s.bleed_mm ∧ 0 ≤ s.page_count ∧
    0 ≤ s.thickness_per_page_mm ∧ 0 < s.width_mm ∧ 0 < s.height_mm

instance (s : CoverSpec) : Decidable s.Valid := by
  unfold CoverSpec.Valid; infer_instance

/-- A pixel rectangle of one cover panel, as drawn by
`draw.rectangle([x, y, x + width, y + height], ...)` in the source. -/
structure PanelRect where
  x : ℤ
  y : ℤ
  width : ℤ
  height : ℤ
  deriving DecidableEq, Repr

/-- The geometric output of `generate_print_wrap_cover_a8`: the full canvas
size and the three panel rectangles (back cover, spine, front cover). -/
structure CanvasPlan where
  width_px : ℤ
  height_px : ℤ
  back : PanelRect
  spine : PanelRect
  front : PanelRect
  deriving DecidableEq, Repr

/-- Embeds the geometry computation of `generate_print_wrap_cover_a8`
(publish_pipeline.py, lines 160-196): spine width, full canvas dimensions,
per-quantity pixel conversions and the three panel rectangles.  The source
performs these computations unconditionally: there is no input validation
and no failure path in this part of the function. -/
def generate_print_wrap_cover_a8 (s : CoverSpec) : CanvasPlan :=
  let spine_mm := compute_spine_width_mm s.page_count s.thickness_per_page_mm
  let full_w_mm := s.width_mm * 2 + spine_mm + 2 * s.bleed_mm
  let full_h_mm := s.height_mm + 2 * s.bleed_mm
  let full_w_px := mm_to_px full_w_mm s.dpi
  let full_h_px := mm_to_px full_h_mm s.dpi
  let bleed_px := mm_to_px s.bleed_mm s.dpi
  let page_w_px := mm_to_px s.width_mm s.dpi
  let page_h_px := mm_to_px s.height_mm s.dpi
  let spine_px := mm_to_px spine_mm s.dpi
  let back_cover_x := 0 + bleed_px
  let spine_x := back_cover_x + page_w_px
  let front_cover_x := spine_x + spine_px
  { width_px := full_w_px
    height_px := full_h_px
    back := ⟨back_cover_x, bleed_px, page_w_px, page_h_px⟩
    spine := ⟨spine_x, bleed_px, spine_px, page_h_px⟩
    front := ⟨front_cover_x, bleed_px, page_w_px, page_h_px⟩ }

/-- Python strings are modelled as lists of characters. -/
abbrev PyStr := List Char

/-- Embeds Python's `str.strip()`: removes leading and trailing whitespace. -/
def pyStrip (s : PyStr) : PyStr :=
  ((s.dropWhile Char.isWhitespace).reverse.dropWhile Char.isWhitespace).reverse

/-- The three cover panels. -/
inductive Panel
  | back
  | spine
  | front
  deriving DecidableEq, Repr

/-- One text placement produced while drawing the cover: the string drawn and
the panel it is drawn on. -/
structure TextPlacement where
  text : PyStr
  panel : Panel
  deriving DecidableEq, Repr

/-- Embeds the text drawing sequence of `generate_print_wrap_cover_a8`
(publish_pipeline.py, lines 203-230): the title lines
`title.strip().split("\n")` drawn on the front cover, then the author line
`"By " + author` on the front cover, then the spine text `title.strip()`
on the spine. -/
def coverTextPlacements (title author : PyStr) : List TextPlacement :=
  (((pyStrip title).splitOn '\n').map fun line => ⟨line, Panel.front⟩)
    ++ [⟨['B', 'y', ' '] ++ author, Panel.front⟩]
    ++ [⟨pyStrip title, Panel.spine⟩]

/-- The concrete scenario of the spec: trim 52×74 mm, bleed 3 mm, dpi 300,
page_count 120, thickness_per_page_mm 0.0025. -/
def scenarioSpec : CoverSpec :=
  { width_mm := 52, height_mm := 74, bleed_mm := 3, dpi := 300,
    page_count := 120, thickness_per_page_mm := 1/400 }

/-- A CoverSpec whose trim width of 0.01 mm converts to a page width of
0 pixels, exercising the non-positive-pixel-dimension case. -/
def tinySpec : CoverSpec :=
  { width_mm := 1/100, height_mm := 74, bleed_mm := 3, dpi := 300,
    page_count := 120, thickness_per_page_mm := 1/400 }

/-- The concrete scenario of the spec with page_count set to 0. -/
def zeroSpineSpec : CoverSpec :=
  { scenarioSpec with page_count := 0 }

/-! Helper lemmas about the rounding function. -/

theorem pyRound_eq_floor_or_succ (q : ℚ) : pyRound q = ⌊q⌋ ∨ pyRound q = ⌊q⌋ + 1 := by
  unfold pyRound
  split_ifs <;> simp

theorem floor_le_pyRound (q : ℚ) : ⌊q⌋ ≤ pyRound q := by
  rcases pyRound_eq_floor_or_succ q with h | h <;> omega

theorem pyRound_le_floor_succ (q : ℚ) : pyRound q ≤ ⌊q⌋ + 1 := by
  rcases pyRound_eq_floor_or_succ q with h | h <;> omega

theorem pyRound_mono {a b : ℚ} (h : a ≤ b) : pyRound a ≤ pyRound b := by
  rcases lt_or_le ⌊a⌋ ⌊b⌋ with hf | hf
  · calc pyRound a ≤ ⌊a⌋ + 1 := pyRound_le_floor_succ a
      _ ≤ ⌊b⌋ := by omega
      _ ≤ pyRound b := floor_le_pyRound b
  · have hfe : ⌊a⌋ = ⌊b⌋ := le_antisymm (Int.floor_mono h) hf
    unfold pyRound
    rw [hfe]
    split_ifs <;> first | omega | linarith

theorem pyRound_zero : pyRound 0 = 0 := by
  norm_num [pyRound]

theorem pyRound_nonpos {q : ℚ} (h : q ≤ 0) : pyRound q ≤ 0 := by
  rcases eq_or_lt_of_le h with he | hlt
  · rw [he, pyRound_zero]
  · have hfl : ⌊q⌋ < 0 := by
      have := Int.floor_le q
      have : (⌊q⌋ : ℚ) < 0 := lt_of_le_of_lt this hlt
      exact_mod_cast this
    have := pyRound_le_floor_succ q
    omega

theorem pyRound_dist_le_half (q : ℚ) : |(pyRound q : ℚ) - q| ≤ 1/2 := by
  have h0 := Int.floor_le q
  have h1 := Int.lt_floor_add_one q
  rw [abs_le]
  unfold pyRound
  split_ifs <;> constructor <;> push_cast <;> linarith

theorem pyRound_tie_even {q : ℚ} (h : |(pyRound q : ℚ) - q| = 1/2) :
    pyRound q % 2 = 0 := by
  have h0 := Int.floor_le q
  have h1 := Int.lt_floor_add_one q
  rw [abs_eq (by norm_num : (0:ℚ) ≤ 1/2)] at h
  unfold pyRound at *
  split_ifs at * with h2 h3 h4 <;> push_cast at h <;> first | omega | (rcases h with h | h <;> linarith)

theorem mm_to_px_mono {m1 m2 : ℚ} {dpi : ℤ} (hd : 0 < dpi) (h : m1 ≤ m2) :
    mm_to_px m1 dpi ≤ mm_to_px m2 dpi := by
  unfold mm_to_px
  apply pyRound_mono
  have hd' : (0:ℚ) ≤ (dpi:ℚ) := by exact_mod_cast hd.le
  have key : ∀ m : ℚ, m / (254/10) * dpi = m * ((dpi : ℚ) / (254/10)) := by
    intro m; ring
  rw [key, key]
  exact mul_le_mul_of_nonneg_right h (div_nonneg hd' (by norm_num))

theorem mm_to_px_zero (dpi : ℤ) : mm_to_px 0 dpi = 0 := by
  unfold mm_to_px
  norm_num [pyRound_zero]

/-- Claim C1, counterexample: at the spec's own concrete scenario (a valid
CoverSpec), the canvas width (1303 px, one conversion of the summed mm width)
differs from 2*page_width_px + spine_width_px + 2*bleed_px (1302 px), and
front.x + front.width + bleed_px differs from canvas.width. -/
theorem c1_counterexample :
    scenarioSpec.Valid ∧
    (generate_print_wrap_cover_a8 scenarioSpec).width_px ≠
      2 * mm_to_px scenarioSpec.width_mm scenarioSpec.dpi
        + mm_to_px (compute_spine_width_mm scenarioSpec.page_count
            scenarioSpec.thickness_per_page_mm) scenarioSpec.dpi
        + 2 * mm_to_px scenarioSpec.bleed_mm scenarioSpec.dpi ∧
    (generate_print_wrap_cover_a8 scenarioSpec).front.x
        + (generate_print_wrap_cover_a8 scenarioSpec).front.width
        + mm_to_px scenarioSpec.bleed_mm scenarioSpec.dpi ≠
      (generate_print_wrap_cover_a8 scenarioSpec).width_px := by
  refine ⟨by norm_num [CoverSpec.Valid, scenarioSpec], ?_, ?_⟩ <;>
    norm_num [generate_print_wrap_cover_a8, scenarioSpec, mm_to_px, pyRound,
      compute_spine_width_mm]

/-- Claim C1, amended: the canvas width is a single mm_to_px conversion of the
summed mm width (not the sum of the independently rounded components), while
front.x + front.width + bleed_px equals the sum of the independently rounded
components; the two sides can therefore differ by the rounding seam. -/
theorem c1_canvas_width_single_conversion (s : CoverSpec) :
    (generate_print_wrap_cover_a8 s).width_px =
      mm_to_px (s.width_mm * 2
        + compute_spine_width_mm s.page_count s.thickness_per_page_mm
        + 2 * s.bleed_mm) s.dpi ∧
    (generate_print_wrap_cover_a8 s).front.x
        + (generate_print_wrap_cover_a8 s).front.width
        + mm_to_px s.bleed_mm s.dpi =
      2 * mm_to_px s.width_mm s.dpi
        + mm_to_px (compute_spine_width_mm s.page_count
            s.thickness_per_page_mm) s.dpi
        + 2 * mm_to_px s.bleed_mm s.dpi := by
  constructor
  · rfl
  · show 0 + mm_to_px s.bleed_mm s.dpi + mm_to_px s.width_mm s.dpi
        + mm_to_px (compute_spine_width_mm s.page_count
            s.thickness_per_page_mm) s.dpi
        + mm_to_px s.width_mm s.dpi
        + mm_to_px s.bleed_mm s.dpi = _
    ring

/-- Claim C2, counterexample: mm_to_px performs no dpi validation; at dpi = 0
it returns 0 and at dpi = -300 it returns -300, silently computed values
rather than an InvalidInput failure. -/
theorem c2_counterexample :
    mm_to_px (254/10) 0 = 0 ∧ mm_to_px (254/10) (-300) = -300 := by
  constructor <;> norm_num [mm_to_px, pyRound]

/-- Claim C2, amended: for dpi ≤ 0 and mm ≥ 0, mm_to_px raises no error and
silently returns the computed (non-positive) value int(round(mm/25.4*dpi)). -/
theorem c2_nonpositive_dpi_silently_computes (mm : ℚ) (dpi : ℤ)
    (hd : dpi ≤ 0) (hm : 0 ≤ mm) : mm_to_px mm dpi ≤ 0 := by
  unfold mm_to_px
  apply pyRound_nonpos
  have hd' : (dpi : ℚ) ≤ 0 := by exact_mod_cast hd
  have h1 : 0 ≤ mm / (254/10) := by positivity
  nlinarith [h1, hd']

/-- Witness for c2_nonpositive_dpi_silently_computes at mm = 10, dpi = 0. -/
theorem c2_witness : mm_to_px 10 0 ≤ 0 :=
  c2_nonpositive_dpi_silently_computes 10 0 (by norm_num) (by norm_num)

/-- Claim C3, counterexample: compute_spine_width_mm performs no validation;
at page_count = -10 it returns the negative value -1/40 mm rather than
failing with InvalidInput. -/
theorem c3_counterexample : compute_spine_width_mm (-10) (1/400) = -(1/40) := by
  norm_num [compute_spine_width_mm]

/-- Claim C3, amended: compute_spine_width_mm returns exactly
page_count * thickness_per_page_mm for every page_count, negative included;
a negative page_count with positive thickness yields a negative spine width
that is propagated rather than rejected. -/
theorem c3_spine_no_validation (page_count : ℤ) (t : ℚ) :
    compute_spine_width_mm page_count t = page_count * t ∧
      (page_count < 0 → 0 < t → compute_spine_width_mm page_count t < 0) := by
  refine ⟨rfl, fun hn ht => ?_⟩
  have hn' : (page_count : ℚ) < 0 := by exact_mod_cast hn
  exact mul_neg_of_neg_of_pos hn' ht

/-- Witness for c3_spine_no_validation at page_count = -1, t = 1. -/
theorem c3_witness : compute_spine_width_mm (-1) 1 < 0 :=
  (c3_spine_no_validation (-1) 1).2 (by norm_num) (by norm_num)

/-- Claim C4, counterexample: for tinySpec the computed page width is 0 px
(non-positive), yet the planner computes the complete canvas plan with the
zero-width panels instead of failing with InvalidInput. -/
theorem c4_counterexample :
    (generate_print_wrap_cover_a8 tinySpec).front.width ≤ 0 ∧
    generate_print_wrap_cover_a8 tinySpec =
      { width_px := 75, height_px := 945,
        back := ⟨35, 35, 0, 874⟩, spine := ⟨35, 35, 4, 874⟩,
        front := ⟨39, 35, 0, 874⟩ } := by
  constructor <;>
    norm_num [generate_print_wrap_cover_a8, tinySpec, mm_to_px, pyRound,
      compute_spine_width_mm, CanvasPlan.mk.injEq, PanelRect.mk.injEq]

/-- Claim C4, amended: when the converted page width is non-positive, the
planner still produces the plan, carrying the non-positive dimension through
unclamped (there is no validation or failure path in the geometry code). -/
theorem c4_no_validation (s : CoverSpec) (h : mm_to_px s.width_mm s.dpi ≤ 0) :
    (generate_print_wrap_cover_a8 s).front.width = mm_to_px s.width_mm s.dpi ∧
      (generate_print_wrap_cover_a8 s).front.width ≤ 0 :=
  ⟨rfl, h⟩

/-- Witness for c4_no_validation at tinySpec. -/
theorem c4_witness :
    mm_to_px tinySpec.width_mm tinySpec.dpi ≤ 0 ∧
    ((generate_print_wrap_cover_a8 tinySpec).front.width
        = mm_to_px tinySpec.width_mm tinySpec.dpi ∧
      (generate_print_wrap_cover_a8 tinySpec).front.width ≤ 0) := by
  have h : mm_to_px tinySpec.width_mm tinySpec.dpi ≤ 0 := by
    norm_num [tinySpec, mm_to_px, pyRound]
  exact ⟨h, c4_no_validation tinySpec h⟩

/-- Claim C5, counterexample: with empty title and author the drawing
sequence is not empty: it contains an empty title line (since
"".strip().split("\n") is [""]), the author line "By ", and an empty
spine line. -/
theorem c5_counterexample :
    coverTextPlacements [] [] =
      [⟨[], Panel.front⟩, ⟨['B', 'y', ' '], Panel.front⟩, ⟨[], Panel.spine⟩] ∧
    coverTextPlacements [] [] ≠ [] := by
  constructor <;> decide

/-- Claim C5, amended: the placement sequence is never empty — for every
title and author it has exactly (number of stripped title lines) + 2 entries
and always contains the author line "By " ++ author on the front panel. -/
theorem c5_placements_nonempty (title author : PyStr) :
    coverTextPlacements title author ≠ [] ∧
      (coverTextPlacements title author).length
        = ((pyStrip title).splitOn '\n').length + 2 ∧
      TextPlacement.mk (['B', 'y', ' '] ++ author) Panel.front
        ∈ coverTextPlacements title author := by
  unfold coverTextPlacements
  refine ⟨?_, ?_, ?_⟩
  · simp
  · simp
  · simp

/-- Claim C6 (confirmed): for every valid CoverSpec the three panels are
contiguous left to right — back.x + back.width = spine.x and
spine.x + spine.width = front.x — and all share y = bleed_px and
height = page_height_px. -/
theorem c6_panels_contiguous (s : CoverSpec) (_hv : s.Valid) :
    (generate_print_wrap_cover_a8 s).back.x
        + (generate_print_wrap_cover_a8 s).back.width
      = (generate_print_wrap_cover_a8 s).spine.x ∧
    (generate_print_wrap_cover_a8 s).spine.x
        + (generate_print_wrap_cover_a8 s).spine.width
      = (generate_print_wrap_cover_a8 s).front.x ∧
    (generate_print_wrap_cover_a8 s).back.y = mm_to_px s.bleed_mm s.dpi ∧
    (generate_print_wrap_cover_a8 s).spine.y = mm_to_px s.bleed_mm s.dpi ∧
    (generate_print_wrap_cover_a8 s).front.y = mm_to_px s.bleed_mm s.dpi ∧
    (generate_print_wrap_cover_a8 s).back.height = mm_to_px s.height_mm s.dpi ∧
    (generate_print_wrap_cover_a8 s).spine.height = mm_to_px s.height_mm s.dpi ∧
    (generate_print_wrap_cover_a8 s).front.height = mm_to_px s.height_mm s.dpi :=
  ⟨rfl, rfl, rfl, rfl, rfl, rfl, rfl, rfl⟩

/-- Witness for c6_panels_contiguous at the spec's concrete scenario. -/
theorem c6_witness :
    scenarioSpec.Valid ∧
    ((generate_print_wrap_cover_a8 scenarioSpec).back.x
        + (generate_print_wrap_cover_a8 scenarioSpec).back.width
      = (generate_print_wrap_cover_a8 scenarioSpec).spine.x ∧
    (generate_print_wrap_cover_a8 scenarioSpec).spine.x
        + (generate_print_wrap_cover_a8 scenarioSpec).spine.width
      = (generate_print_wrap_cover_a8 scenarioSpec).front.x ∧
    (generate_print_wrap_cover_a8 scenarioSpec).back.y
      = mm_to_px scenarioSpec.bleed_mm scenarioSpec.dpi ∧
    (generate_print_wrap_cover_a8 scenarioSpec).spine.y
      = mm_to_px scenarioSpec.bleed_mm scenarioSpec.dpi ∧
    (generate_print_wrap_cover_a8 scenarioSpec).front.y
      = mm_to_px scenarioSpec.bleed_mm scenarioSpec.dpi ∧
    (generate_print_wrap_cover_a8 scenarioSpec).back.height
      = mm_to_px scenarioSpec.height_mm scenarioSpec.dpi ∧
    (generate_print_wrap_cover_a8 scenarioSpec).spine.height
      = mm_to_px scenarioSpec.height_mm scenarioSpec.dpi ∧
    (generate_print_wrap_cover_a8 scenarioSpec).front.height
      = mm_to_px scenarioSpec.height_mm scenarioSpec.dpi) :=
  ⟨by norm_num [CoverSpec.Valid, scenarioSpec],
    c6_panels_contiguous scenarioSpec
      (by norm_num [CoverSpec.Valid, scenarioSpec])⟩

/-- Claim C7 (confirmed): the concrete scenario trim 52×74 mm, bleed 3 mm,
dpi 300, page_count 120, thickness 0.0025 mm yields spine 0.3 mm, full size
110.3×80.0 mm, canvas 1303×945 px, panel widths 614/4/614 px and a bleed
margin of 35 px. -/
theorem c7_concrete_scenario :
    compute_spine_width_mm scenarioSpec.page_count
        scenarioSpec.thickness_per_page_mm = 3/10 ∧
    scenarioSpec.width_mm * 2
        + compute_spine_width_mm scenarioSpec.page_count
            scenarioSpec.thickness_per_page_mm
        + 2 * scenarioSpec.bleed_mm = 1103/10 ∧
    scenarioSpec.height_mm + 2 * scenarioSpec.bleed_mm = 80 ∧
    (generate_print_wrap_cover_a8 scenarioSpec).width_px = 1303 ∧
    (generate_print_wrap_cover_a8 scenarioSpec).height_px = 945 ∧
    (generate_print_wrap_cover_a8 scenarioSpec).back.width = 614 ∧
    (generate_print_wrap_cover_a8 scenarioSpec).spine.width = 4 ∧
    (generate_print_wrap_cover_a8 scenarioSpec).front.width = 614 ∧
    (generate_print_wrap_cover_a8 scenarioSpec).back.x = 35 ∧
    (generate_print_wrap_cover_a8 scenarioSpec).back.y = 35 := by
  norm_num [generate_print_wrap_cover_a8, scenarioSpec, mm_to_px, pyRound,
    compute_spine_width_mm]

/-- Claim C8 (confirmed): when page_count = 0 the spine panel has width 0 px
and the front and back panels abut: front.x = back.x + back.width. -/
theorem c8_zero_page_count (s : CoverSpec) (_hv : s.Valid)
    (h0 : s.page_count = 0) :
    (generate_print_wrap_cover_a8 s).spine.width = 0 ∧
      (generate_print_wrap_cover_a8 s).front.x =
        (generate_print_wrap_cover_a8 s).back.x
          + (generate_print_wrap_cover_a8 s).back.width := by
  have hspine : compute_spine_width_mm s.page_count s.thickness_per_page_mm
      = 0 := by
    rw [compute_spine_width_mm, h0]; norm_num
  have hpx : mm_to_px (compute_spine_width_mm s.page_count
      s.thickness_per_page_mm) s.dpi = 0 := by
    rw [hspine]; exact mm_to_px_zero s.dpi
  refine ⟨hpx, ?_⟩
  show 0 + mm_to_px s.bleed_mm s.dpi + mm_to_px s.width_mm s.dpi
      + mm_to_px (compute_spine_width_mm s.page_count
          s.thickness_per_page_mm) s.dpi
    = 0 + mm_to_px s.bleed_mm s.dpi + mm_to_px s.width_mm s.dpi
  rw [hpx]
  ring

/-- Witness for c8_zero_page_count at the scenario spec with zero pages. -/
theorem c8_witness :
    zeroSpineSpec.Valid ∧ zeroSpineSpec.page_count = 0 ∧
    ((generate_print_wrap_cover_a8 zeroSpineSpec).spine.width = 0 ∧
      (generate_print_wrap_cover_a8 zeroSpineSpec).front.x =
        (generate_print_wrap_cover_a8 zeroSpineSpec).back.x
          + (generate_print_wrap_cover_a8 zeroSpineSpec).back.width) :=
  ⟨by norm_num [CoverSpec.Valid, zeroSpineSpec, scenarioSpec], rfl,
    c8_zero_page_count zeroSpineSpec
      (by norm_num [CoverSpec.Valid, zeroSpineSpec, scenarioSpec]) rfl⟩

/-- Claim C9 (confirmed): for dpi > 0 and 0 ≤ mm1 ≤ mm2, mm_to_px is
monotonically non-decreasing in the mm argument, and mm_to_px 0 dpi = 0. -/
theorem c9_mm_to_px_monotone (dpi : ℤ) (m1 m2 : ℚ) (hd : 0 < dpi)
    (_h0 : 0 ≤ m1) (h12 : m1 ≤ m2) :
    mm_to_px m1 dpi ≤ mm_to_px m2 dpi ∧ mm_to_px 0 dpi = 0 :=
  ⟨mm_to_px_mono hd h12, mm_to_px_zero dpi⟩

/-- Witness for c9_mm_to_px_monotone at dpi = 300, mm1 = 1, mm2 = 2. -/
theorem c9_witness :
    mm_to_px 1 300 ≤ mm_to_px 2 300 ∧ mm_to_px 0 300 = 0 :=
  c9_mm_to_px_monotone 300 1 2 (by norm_num) (by norm_num) (by norm_num)

/-- Claim C10 (confirmed over exact rational arithmetic): mm_to_px is the
integer nearest to mm * dpi / 25.4 with exact halves rounded to the nearest
even integer, and this single conversion is the one applied to every pixel
quantity of a render (bleed, page width, page height, spine width, full
canvas width and height). -/
theorem c10_rounding_policy :
    (∀ (mm : ℚ) (dpi : ℤ),
      |(mm_to_px mm dpi : ℚ) - mm * dpi / (254/10)| ≤ 1/2 ∧
        (|(mm_to_px mm dpi : ℚ) - mm * dpi / (254/10)| = 1/2 →
          mm_to_px mm dpi % 2 = 0)) ∧
    (∀ s : CoverSpec,
      (generate_print_wrap_cover_a8 s).back.y = mm_to_px s.bleed_mm s.dpi ∧
      (generate_print_wrap_cover_a8 s).back.width
        = mm_to_px s.width_mm s.dpi ∧
      (generate_print_wrap_cover_a8 s).back.height
        = mm_to_px s.height_mm s.dpi ∧
      (generate_print_wrap_cover_a8 s).spine.width
        = mm_to_px (compute_spine_width_mm s.page_count
            s.thickness_per_page_mm) s.dpi ∧
      (generate_print_wrap_cover_a8 s).width_px
        = mm_to_px (s.width_mm * 2
            + compute_spine_width_mm s.page_count s.thickness_per_page_mm
            + 2 * s.bleed_mm) s.dpi ∧
      (generate_print_wrap_cover_a8 s).height_px
        = mm_to_px (s.height_mm + 2 * s.bleed_mm) s.dpi) := by
  constructor
  · intro mm dpi
    have hmm : mm_to_px mm dpi = pyRound (mm * dpi / (254/10)) := by
      unfold mm_to_px
      congr 1
      ring
    rw [hmm]
    exact ⟨pyRound_dist_le_half _, fun h => pyRound_tie_even h⟩
  · intro s
    exact ⟨rfl, rfl, rfl, rfl, rfl, rfl⟩

/-- Witness for c10_rounding_policy at a concrete exact tie:
889/3000 mm at 300 dpi is exactly 3.5 px and rounds to the even value 4. -/
theorem c10_witness : mm_to_px (889/3000) 300 % 2 = 0 := by
  apply (c10_rounding_policy.1 (889/3000) 300).2
  have hv : mm_to_px (889/3000 : ℚ) 300 = 4 := by
    norm_num [mm_to_px, pyRound]
  rw [hv]
  push_cast
  rw [show (4 : ℚ) - 889/3000 * 300 / (254/10) = 1/2 by norm_num]
  exact abs_of_nonneg (by norm_num)

end PublishPipeline
